import Mathlib

/-!
# Window lifecycle and delegation layer

A shallow embedding of `vstgui/standalone/detail/window.cpp` (class
`VSTGUI::Standalone::Detail::Window` and the factory `makeWindow`).

* Objects the window only points to (listeners, controller, content view,
  platform window) are identified by numbers; what they answer when called
  is supplied by a record of collaborators.
* Every call the window makes on one of those objects is appended to an
  event log, the way a test double would record it.
* A `->` on a null platform window pointer is a fault: operations that
  dereference it without a guard return `Except Fault _`.
-/

namespace VSTGUI.Standalone.Detail

/-- CPoint of the library. The window code never computes with coordinates, it
only passes them on, so the coordinate type is kept as integers. -/
structure CPoint where
  x : Int
  y : Int
deriving DecidableEq, Repr

abbrev UTF8String := String

/-- Identity of an `IWindowListener*`. -/
abbrev ListenerId := Nat
/-- Identity of the object behind a non-null `WindowControllerPtr`. -/
abbrev ControllerId := Nat
/-- Identity of the object behind a non-null `SharedPointer<CFrame>`. -/
abbrev FrameId := Nat
/-- Identity of the object behind a non-null `Platform::WindowPtr`. -/
abbrev PlatformWindowId := Nat
/-- Identity of the `ICommandHandler` view of a controller. -/
abbrev CommandHandlerId := Nat

/-- Command of `icommand.h`: the window only forwards it. -/
structure Command where
  group : UTF8String
  name : UTF8String
deriving DecidableEq, Repr

/-- The part of `config.flags` that `Window::init` reads. -/
structure WindowFlags where
  autoSaveFrame : Bool
deriving DecidableEq, Repr

def WindowFlags.doesAutoSaveFrame (flags : WindowFlags) : Bool :=
  flags.autoSaveFrame

/-- The part of `WindowConfiguration` that `Window::init` reads. -/
structure WindowConfiguration where
  flags : WindowFlags
  autoSaveFrameName : UTF8String
deriving DecidableEq, Repr

/-- Modelled from the spec: `DispatchList` (`lib/dispatchlist.h`) is not among
the sources. The specification asks for a multicast registry that does not
deduplicate registrations and whose fan-out is resilient to removal during
iteration, naming copy-snapshot-then-iterate as an implementation. The entries
are kept in registration order. -/
structure DispatchList (T : Type) where
  entries : List T
deriving DecidableEq, Repr

/-- Modelled from the spec: `DispatchList::add`, registration without
deduplication. -/
def DispatchList.add {T : Type} (d : DispatchList T) (obj : T) : DispatchList T :=
  ⟨d.entries ++ [obj]⟩

/-- Modelled from the spec: `DispatchList::remove`, removal of one registration
of the observer (nothing happens when it is not registered). -/
def DispatchList.remove {T : Type} [DecidableEq T] (d : DispatchList T) (obj : T) :
    DispatchList T :=
  ⟨d.entries.erase obj⟩

/-- Modelled from the spec: `DispatchList::forEach` as snapshot-then-iterate.
`d` is the registry as it is when the fan-out starts; `proc` is run on every
entry of that snapshot, in order, threading the state, whatever `proc` does to
the live registry held in the state. -/
def DispatchList.forEach {T σ : Type} (d : DispatchList T) (proc : T → σ → σ) (s : σ) : σ :=
  d.entries.foldl (fun st obj => proc obj st) s

/-- The data members of `Window`. A null pointer is `none`. -/
structure Window where
  controller : Option ControllerId
  platformWindow : Option PlatformWindowId
  frame : Option FrameId
  autoSaveFrameName : UTF8String
  windowListeners : DispatchList ListenerId
deriving DecidableEq, Repr

/-- The five notifications of `IWindowListener` and `IWindowController`. -/
inductive Notification where
  | onSizeChanged (newSize : CPoint)
  | onPositionChanged (newPosition : CPoint)
  | onShow
  | onHide
  | onClosed
deriving DecidableEq, Repr

/-- The mutating calls of `Platform::IWindow` that the proxies forward. -/
inductive PlatformCall where
  | setSize (newSize : CPoint)
  | setPosition (newPosition : CPoint)
  | setTitle (newTitle : UTF8String)
  | show
  | hide
  | close
deriving DecidableEq, Repr

/-- One call made by the window on a collaborator. -/
inductive Event where
  | listener (listener : ListenerId) (n : Notification)
  | controller (controller : ControllerId) (n : Notification)
  | controllerConstraintSize (controller : ControllerId) (newSize : CPoint)
  | controllerCanClose (controller : ControllerId)
  | controllerDynamicCast (controller : ControllerId)
  | commandHandlerCanHandleCommand (handler : CommandHandlerId) (command : Command)
  | commandHandlerHandleCommand (handler : CommandHandlerId) (command : Command)
  | frameOpen (frame : FrameId) (platformHandle : Nat) (platformType : Nat)
  | frameClose (frame : FrameId)
  | frameSetSize (frame : FrameId) (width : Int) (height : Int)
  | frameRemember (frame : FrameId)
  | platform (platformWindow : PlatformWindowId) (call : PlatformCall)
deriving DecidableEq, Repr

/-- The window together with the log of the calls made so far. -/
structure World where
  win : Window
  log : List Event
deriving DecidableEq, Repr

/-- A call a listener makes back into the window from inside a notification.
The registry calls are the re-entrancy the window code itself provides for. -/
inductive RegistryCall where
  | register (listener : ListenerId)
  | unregister (listener : ListenerId)
deriving DecidableEq, Repr

/-- Dereference of a null pointer. -/
inductive Fault where
  | nullDereference
deriving DecidableEq, Repr

/-- The answers of the objects outside the window. The answers to queries may
depend on the window and on everything logged so far; the native handle and
the type of a platform window are fixed.
* `platformMakeWindow` is `Platform::makeWindow (config, delegate)`, `none` when
  the platform creates no window.
* `dynamicCastCommandHandler` is the answer of a controller object to
  `dynamicCast<ICommandHandler> ()`, `none` when it does not implement the
  interface.
* `listenerReentry` lists the registry calls a listener makes on the window
  while it handles a notification. The controller, the content view and the
  platform window are taken not to call back into the window. -/
structure Collaborators where
  platformMakeWindow : WindowConfiguration → Option PlatformWindowId
  platformGetSize : PlatformWindowId → World → CPoint
  platformGetPosition : PlatformWindowId → World → CPoint
  getPlatformHandle : PlatformWindowId → Nat
  getPlatformType : PlatformWindowId → Nat
  controllerConstraintSize : ControllerId → World → CPoint → CPoint
  controllerCanClose : ControllerId → World → Bool
  dynamicCastCommandHandler : ControllerId → Option CommandHandlerId
  commandHandlerCanHandleCommand : CommandHandlerId → World → Command → Bool
  commandHandlerHandleCommand : CommandHandlerId → World → Command → Bool
  listenerReentry : ListenerId → Notification → World → List RegistryCall

/-- Append one call to the log. -/
def World.emit (s : World) (e : Event) : World :=
  { s with log := s.log ++ [e] }

/-- Method `Window::getController`. -/
def getController (s : World) : Option ControllerId × World :=
  (s.win.controller, s)

/-- Method `Window::getSize`: `platformWindow->getSize ()`. -/
def getSize (m : Collaborators) (s : World) : Except Fault (CPoint × World) :=
  match s.win.platformWindow with
  | none => .error .nullDereference
  | some pw => .ok (m.platformGetSize pw s, s)

/-- Method `Window::getPosition`: `platformWindow->getPosition ()`. -/
def getPosition (m : Collaborators) (s : World) : Except Fault (CPoint × World) :=
  match s.win.platformWindow with
  | none => .error .nullDereference
  | some pw => .ok (m.platformGetPosition pw s, s)

/-- Method `Window::setSize`: `platformWindow->setSize (newSize)`. -/
def setSize (newSize : CPoint) (s : World) : Except Fault World :=
  match s.win.platformWindow with
  | none => .error .nullDereference
  | some pw => .ok (s.emit (.platform pw (.setSize newSize)))

/-- Method `Window::setPosition`: `platformWindow->setPosition (newPosition)`. -/
def setPosition (newPosition : CPoint) (s : World) : Except Fault World :=
  match s.win.platformWindow with
  | none => .error .nullDereference
  | some pw => .ok (s.emit (.platform pw (.setPosition newPosition)))

/-- Method `Window::setTitle`: `platformWindow->setTitle (newTitle)`. -/
def setTitle (newTitle : UTF8String) (s : World) : Except Fault World :=
  match s.win.platformWindow with
  | none => .error .nullDereference
  | some pw => .ok (s.emit (.platform pw (.setTitle newTitle)))

/-- Method `Window::show`: `platformWindow->show ()`. -/
def «show» (s : World) : Except Fault World :=
  match s.win.platformWindow with
  | none => .error .nullDereference
  | some pw => .ok (s.emit (.platform pw .show))

/-- Method `Window::hide`: `platformWindow->hide ()`. -/
def hide (s : World) : Except Fault World :=
  match s.win.platformWindow with
  | none => .error .nullDereference
  | some pw => .ok (s.emit (.platform pw .hide))

/-- Method `Window::close`: `platformWindow->close ()`. -/
def close (s : World) : Except Fault World :=
  match s.win.platformWindow with
  | none => .error .nullDereference
  | some pw => .ok (s.emit (.platform pw .close))

/-- Method `Window::init`. The result is the returned flag and the window after the
call. -/
def init (m : Collaborators) (config : WindowConfiguration)
    (inController : Option ControllerId) (w : Window) : Bool × Window :=
  let w1 : Window := { w with platformWindow := m.platformMakeWindow config }
  let w2 : Window :=
    match w1.platformWindow with
    | some _ =>
      let w3 : Window :=
        if config.flags.doesAutoSaveFrame then
          { w1 with autoSaveFrameName := config.autoSaveFrameName }
        else w1
      { w3 with controller := inController }
    | none => w1
  (w2.platformWindow.isSome, w2)

/-- The window right after `std::make_shared<Detail::Window> ()`. -/
def newWindow : Window :=
  { controller := none, platformWindow := none, frame := none,
    autoSaveFrameName := "", windowListeners := ⟨[]⟩ }

/-- The factory `makeWindow`; `none` is the returned `nullptr`. -/
def makeWindow (m : Collaborators) (config : WindowConfiguration)
    (controller : Option ControllerId) : Option Window :=
  let r := init m config controller newWindow
  if !r.1 then none else some r.2

/-- Method `Window::setContentView`. -/
def setContentView (m : Collaborators) (newFrame : Option FrameId) (s : World) :
    Except Fault World :=
  let s1 : World :=
    match s.win.frame with
    | some f => s.emit (.frameClose f)
    | none => s
  let s2 : World := { s1 with win := { s1.win with frame := newFrame } }
  match s2.win.frame with
  | none => .ok s2
  | some f =>
    match s2.win.platformWindow with
    | none => .error .nullDereference
    | some pw => .ok (s2.emit (.frameOpen f (m.getPlatformHandle pw) (m.getPlatformType pw)))

/-- Method `Window::registerWindowListener`. -/
def registerWindowListener (listener : ListenerId) (s : World) : World :=
  { s with win := { s.win with windowListeners := s.win.windowListeners.add listener } }

/-- Method `Window::unregisterWindowListener`. -/
def unregisterWindowListener (listener : ListenerId) (s : World) : World :=
  { s with win := { s.win with windowListeners := s.win.windowListeners.remove listener } }

/-- Run one re-entrant registry call. -/
def RegistryCall.run : RegistryCall → World → World
  | .register listener, s => registerWindowListener listener s
  | .unregister listener, s => unregisterWindowListener listener s

/-- The call `listener->n (*this, ...)`: it is logged, then the listener runs
and makes its calls back into the window. -/
def notifyListener (m : Collaborators) (listener : ListenerId) (n : Notification)
    (s : World) : World :=
  (m.listenerReentry listener n s).foldl (fun st call => call.run st)
    (s.emit (.listener listener n))

/-- The guarded call `if (controller) controller->n (*this, ...)`. -/
def notifyController (n : Notification) (s : World) : World :=
  match s.win.controller with
  | some c => s.emit (.controller c n)
  | none => s

/-- Method `Window::constraintSize`. -/
def constraintSize (m : Collaborators) (newSize : CPoint) (s : World) : CPoint × World :=
  match s.win.controller with
  | some c => (m.controllerConstraintSize c s newSize, s.emit (.controllerConstraintSize c newSize))
  | none => (newSize, s)

/-- Method `Window::onSizeChanged`. -/
def onSizeChanged (m : Collaborators) (newSize : CPoint) (s : World) : World :=
  let s1 := s.win.windowListeners.forEach
    (fun listener st => notifyListener m listener (.onSizeChanged newSize) st) s
  let s2 := notifyController (.onSizeChanged newSize) s1
  match s2.win.frame with
  | some f => s2.emit (.frameSetSize f newSize.x newSize.y)
  | none => s2

/-- Method `Window::onPositionChanged`. -/
def onPositionChanged (m : Collaborators) (newPosition : CPoint) (s : World) : World :=
  let s1 := s.win.windowListeners.forEach
    (fun listener st => notifyListener m listener (.onPositionChanged newPosition) st) s
  notifyController (.onPositionChanged newPosition) s1

/-- Method `Window::onClosed`. The `shared_from_this ()` at its start only keeps the
object alive and has no counterpart here. -/
def onClosed (m : Collaborators) (s : World) : World :=
  let s1 := s.win.windowListeners.forEach
    (fun listener st =>
      let st1 := notifyListener m listener .onClosed st
      { st1 with win := { st1.win with
          windowListeners := st1.win.windowListeners.remove listener } }) s
  let s2 := notifyController .onClosed s1
  let s3 : World :=
    match s2.win.frame with
    | some f =>
      let s4 := (s2.emit (.frameRemember f)).emit (.frameClose f)
      { s4 with win := { s4.win with frame := none } }
    | none => s2
  { s3 with win := { s3.win with platformWindow := none } }

/-- Method `Window::onShow`. -/
def onShow (m : Collaborators) (s : World) : World :=
  let s1 := s.win.windowListeners.forEach
    (fun listener st => notifyListener m listener .onShow st) s
  notifyController .onShow s1

/-- Method `Window::onHide`. -/
def onHide (m : Collaborators) (s : World) : World :=
  let s1 := s.win.windowListeners.forEach
    (fun listener st => notifyListener m listener .onHide st) s
  notifyController .onHide s1

/-- Method `Window::canClose`. -/
def canClose (m : Collaborators) (s : World) : Bool × World :=
  match s.win.controller with
  | some c => (m.controllerCanClose c s, s.emit (.controllerCanClose c))
  | none => (true, s)

/-- Modelled from the spec: the member template `dynamicCast<ICommandHandler> ()`
that the two command methods call on the controller pointer; its body is not
among the sources. The specification describes it as a capability check, not an
unconditional cast: it yields the command handler when the controller implements
the capability, and nothing when the controller is absent or lacks it. The check
is logged when there is a controller to be asked. -/
def dynamicCast (m : Collaborators) (controller : Option ControllerId) (s : World) :
    Option CommandHandlerId × World :=
  match controller with
  | none => (none, s)
  | some c => (m.dynamicCastCommandHandler c, s.emit (.controllerDynamicCast c))

/-- Method `Window::canHandleCommand`. -/
def canHandleCommand (m : Collaborators) (command : Command) (s : World) :
    Except Fault (Bool × World) :=
  match dynamicCast m s.win.controller s with
  | (some commandHandler, s1) =>
    .ok (m.commandHandlerCanHandleCommand commandHandler s1 command,
         s1.emit (.commandHandlerCanHandleCommand commandHandler command))
  | (none, s1) => .ok (false, s1)

/-- Method `Window::handleCommand`. -/
def handleCommand (m : Collaborators) (command : Command) (s : World) :
    Except Fault (Bool × World) :=
  match dynamicCast m s.win.controller s with
  | (some commandHandler, s1) =>
    .ok (m.commandHandlerHandleCommand commandHandler s1 command,
         s1.emit (.commandHandlerHandleCommand commandHandler command))
  | (none, s1) => .ok (false, s1)

/-- The operations of the window: the `IWindow` surface, the
`Platform::IWindowDelegate` callbacks and the `ICommandHandler` calls. -/
inductive Op where
  | getController
  | getSize
  | getPosition
  | setSize (newSize : CPoint)
  | setPosition (newPosition : CPoint)
  | setTitle (newTitle : UTF8String)
  | setContentView (newFrame : Option FrameId)
  | show
  | hide
  | close
  | registerWindowListener (listener : ListenerId)
  | unregisterWindowListener (listener : ListenerId)
  | constraintSize (newSize : CPoint)
  | onSizeChanged (newSize : CPoint)
  | onPositionChanged (newPosition : CPoint)
  | onShow
  | onHide
  | onClosed
  | canClose
  | canHandleCommand (command : Command)
  | handleCommand (command : Command)
deriving DecidableEq, Repr

/-- One operation on the window, its return value dropped. -/
def step (m : Collaborators) : Op → World → Except Fault World
  | .getController, s => .ok (getController s).2
  | .getSize, s => (getSize m s).map Prod.snd
  | .getPosition, s => (getPosition m s).map Prod.snd
  | .setSize newSize, s => setSize newSize s
  | .setPosition newPosition, s => setPosition newPosition s
  | .setTitle newTitle, s => setTitle newTitle s
  | .setContentView newFrame, s => setContentView m newFrame s
  | .show, s => «show» s
  | .hide, s => hide s
  | .close, s => close s
  | .registerWindowListener listener, s => .ok (registerWindowListener listener s)
  | .unregisterWindowListener listener, s => .ok (unregisterWindowListener listener s)
  | .constraintSize newSize, s => .ok (constraintSize m newSize s).2
  | .onSizeChanged newSize, s => .ok (onSizeChanged m newSize s)
  | .onPositionChanged newPosition, s => .ok (onPositionChanged m newPosition s)
  | .onShow, s => .ok (onShow m s)
  | .onHide, s => .ok (onHide m s)
  | .onClosed, s => .ok (onClosed m s)
  | .canClose, s => .ok (canClose m s).2
  | .canHandleCommand command, s => (canHandleCommand m command s).map Prod.snd
  | .handleCommand command, s => (handleCommand m command s).map Prod.snd

/-- A sequence of operations, one after the other; a fault ends the run. -/
def runOps (m : Collaborators) : List Op → World → Except Fault World
  | [], s => .ok s
  | op :: ops, s =>
    match step m op s with
    | .ok s1 => runOps m ops s1
    | .error e => .error e

/-- Everything of the window except the listener registry is the same. -/
def SameButListeners (a b : World) : Prop :=
  a.win.controller = b.win.controller ∧ a.win.platformWindow = b.win.platformWindow ∧
  a.win.frame = b.win.frame ∧ a.win.autoSaveFrameName = b.win.autoSaveFrameName

/-! ## Sample collaborators and windows -/

/-- Sample collaborators: the platform creates window 100 unless the auto-save
name is "fail"; controller 7 implements `ICommandHandler` (as handler 70) and
handles the commands of group "Edit"; every other controller does not;
listener 1 unregisters itself inside its own `onClosed`. -/
def sampleCollaborators : Collaborators where
  platformMakeWindow := fun config =>
    if config.autoSaveFrameName = "fail" then none else some 100
  platformGetSize := fun _ _ => ⟨640, 480⟩
  platformGetPosition := fun _ _ => ⟨10, 20⟩
  getPlatformHandle := fun pw => pw + 1
  getPlatformType := fun _ => 0
  controllerConstraintSize := fun _ _ p => ⟨p.x, 300⟩
  controllerCanClose := fun _ _ => false
  dynamicCastCommandHandler := fun c => if c = 7 then some 70 else none
  commandHandlerCanHandleCommand := fun _ _ command => decide (command.group = "Edit")
  commandHandlerHandleCommand := fun _ _ command => decide (command.group = "Edit")
  listenerReentry := fun listener n _ =>
    if listener = 1 ∧ n = .onClosed then [.unregister listener] else []

def sampleConfig : WindowConfiguration :=
  { flags := ⟨true⟩, autoSaveFrameName := "main" }

def failingConfig : WindowConfiguration :=
  { flags := ⟨true⟩, autoSaveFrameName := "fail" }

def sampleCommand : Command :=
  { group := "Edit", name := "Copy" }

/-- The window that `makeWindow` returns for `sampleConfig` and controller `c`. -/
def madeWindow (c : Option ControllerId) : Window :=
  { controller := c, platformWindow := some 100, frame := none,
    autoSaveFrameName := "main", windowListeners := ⟨[]⟩ }

/-- A run on a live window. -/
def sampleOpsLive : List Op :=
  [.setContentView (some 5), .registerWindowListener 2, .onSizeChanged ⟨3, 4⟩, .show,
   .canHandleCommand sampleCommand]

/-- The state after `sampleOpsLive` on `madeWindow (some 7)`. -/
def sampleLive : World :=
  { win := { controller := some 7, platformWindow := some 100, frame := some 5,
             autoSaveFrameName := "main", windowListeners := ⟨[2]⟩ },
    log := [.frameOpen 5 101 0, .listener 2 (.onSizeChanged ⟨3, 4⟩),
            .controller 7 (.onSizeChanged ⟨3, 4⟩), .frameSetSize 5 3 4,
            .platform 100 .show, .controllerDynamicCast 7,
            .commandHandlerCanHandleCommand 70 sampleCommand] }

/-- A run on the closed window. -/
def sampleOpsClosed : List Op :=
  [.unregisterWindowListener 2, .onHide, .setContentView none, .onClosed, .canClose]

/-- The state after `onClosed` and `sampleOpsClosed` on `sampleLive`. -/
def sampleClosed : World :=
  { win := { controller := some 7, platformWindow := none, frame := none,
             autoSaveFrameName := "main", windowListeners := ⟨[]⟩ },
    log := sampleLive.log ++
      [.listener 2 .onClosed, .controller 7 .onClosed, .frameRemember 5, .frameClose 5,
       .controller 7 .onHide, .controller 7 .onClosed, .controllerCanClose 7] }

/-- A live window with controller `c`, content view 5 and listeners 1 and 2. -/
def sampleWindow (c : Option ControllerId) : Window :=
  { controller := c, platformWindow := some 100, frame := some 5,
    autoSaveFrameName := "main", windowListeners := ⟨[1, 2]⟩ }

/-! ## Frame lemmas: what a fan-out can and cannot touch -/

theorem SameButListeners.refl (a : World) : SameButListeners a a :=
  ⟨rfl, rfl, rfl, rfl⟩

theorem SameButListeners.trans {a b c : World} (h1 : SameButListeners a b)
    (h2 : SameButListeners b c) : SameButListeners a c :=
  ⟨h1.1.trans h2.1, h1.2.1.trans h2.2.1, h1.2.2.1.trans h2.2.2.1, h1.2.2.2.trans h2.2.2.2⟩

theorem RegistryCall.run_log (call : RegistryCall) (s : World) : (call.run s).log = s.log := by
  cases call <;> rfl

theorem RegistryCall.run_same (call : RegistryCall) (s : World) :
    SameButListeners (call.run s) s := by
  cases call <;> exact ⟨rfl, rfl, rfl, rfl⟩

theorem reentry_log (calls : List RegistryCall) (s : World) :
    (calls.foldl (fun st call => call.run st) s).log = s.log := by
  induction calls generalizing s with
  | nil => rfl
  | cons call rest ih => rw [List.foldl_cons, ih, RegistryCall.run_log]

theorem reentry_same (calls : List RegistryCall) (s : World) :
    SameButListeners (calls.foldl (fun st call => call.run st) s) s := by
  induction calls generalizing s with
  | nil => exact SameButListeners.refl s
  | cons call rest ih =>
    rw [List.foldl_cons]
    exact (ih _).trans (RegistryCall.run_same call s)

theorem notifyListener_log (m : Collaborators) (listener : ListenerId) (n : Notification)
    (s : World) : (notifyListener m listener n s).log = s.log ++ [Event.listener listener n] := by
  unfold notifyListener
  rw [reentry_log]
  rfl

theorem notifyListener_same (m : Collaborators) (listener : ListenerId) (n : Notification)
    (s : World) : SameButListeners (notifyListener m listener n s) s := by
  unfold notifyListener
  exact (reentry_same _ _).trans ⟨rfl, rfl, rfl, rfl⟩

/-- A fan-out whose procedure logs exactly one call per entry logs the calls of
the snapshot, in order. -/
theorem forEach_log {T : Type} (ev : T → Event) (proc : T → World → World)
    (hproc : ∀ obj st, (proc obj st).log = st.log ++ [ev obj])
    (d : DispatchList T) (s : World) :
    (d.forEach proc s).log = s.log ++ d.entries.map ev := by
  unfold DispatchList.forEach
  generalize d.entries = ls
  induction ls generalizing s with
  | nil => simp
  | cons obj rest ih =>
    rw [List.foldl_cons, ih, hproc]
    simp

/-- A fan-out whose procedure leaves the rest of the window alone leaves the
rest of the window alone. -/
theorem forEach_same {T : Type} (proc : T → World → World)
    (hproc : ∀ obj st, SameButListeners (proc obj st) st)
    (d : DispatchList T) (s : World) :
    SameButListeners (d.forEach proc s) s := by
  unfold DispatchList.forEach
  generalize d.entries = ls
  induction ls generalizing s with
  | nil => exact SameButListeners.refl s
  | cons obj rest ih =>
    rw [List.foldl_cons]
    exact (ih _).trans (hproc obj s)

theorem notifyController_log (n : Notification) (s : World) :
    (notifyController n s).log = s.log ++
      (match s.win.controller with
       | some c => [Event.controller c n]
       | none => []) := by
  unfold notifyController
  cases s.win.controller <;> simp [World.emit]

theorem notifyController_win (n : Notification) (s : World) :
    (notifyController n s).win = s.win := by
  unfold notifyController
  cases s.win.controller <;> rfl

/-- The procedure that `onClosed` runs on each listener logs the one
notification. -/
theorem closeProc_log (m : Collaborators) (listener : ListenerId) (st : World) :
    ({ notifyListener m listener .onClosed st with
        win := { (notifyListener m listener .onClosed st).win with
          windowListeners :=
            (notifyListener m listener .onClosed st).win.windowListeners.remove listener } }
      : World).log = st.log ++ [Event.listener listener .onClosed] :=
  notifyListener_log m listener .onClosed st

theorem closeProc_same (m : Collaborators) (listener : ListenerId) (st : World) :
    SameButListeners
      ({ notifyListener m listener .onClosed st with
        win := { (notifyListener m listener .onClosed st).win with
          windowListeners :=
            (notifyListener m listener .onClosed st).win.windowListeners.remove listener } }
      : World) st :=
  notifyListener_same m listener .onClosed st

/-- When a listener does nothing to the registry in its `onClosed`, or
unregisters itself there, the procedure of `onClosed` leaves a duplicate-free
registry without that listener and otherwise as it was. -/
theorem closeProc_entries (m : Collaborators) (listener : ListenerId) (st : World)
    (hcb : m.listenerReentry listener .onClosed st = [] ∨
      m.listenerReentry listener .onClosed st = [.unregister listener])
    (hnd : st.win.windowListeners.entries.Nodup) :
    ((notifyListener m listener .onClosed st).win.windowListeners.remove listener).entries =
      st.win.windowListeners.entries.filter (fun x => x != listener) := by
  have herase : st.win.windowListeners.entries.erase listener =
      st.win.windowListeners.entries.filter (fun x => x != listener) :=
    List.Nodup.erase_eq_filter hnd listener
  unfold notifyListener DispatchList.remove
  rcases hcb with h | h
  · rw [h]
    simpa [World.emit] using herase
  · rw [h]
    simp only [List.foldl_cons, List.foldl_nil, RegistryCall.run, unregisterWindowListener,
      DispatchList.remove, World.emit]
    rw [herase]
    apply List.erase_of_not_mem
    simp

theorem foldl_close_entries (m : Collaborators)
    (hcb : ∀ listener st, m.listenerReentry listener .onClosed st = [] ∨
      m.listenerReentry listener .onClosed st = [.unregister listener])
    (ls : List ListenerId) (s : World) (hnd : s.win.windowListeners.entries.Nodup) :
    (ls.foldl (fun st listener =>
        ({ notifyListener m listener .onClosed st with
          win := { (notifyListener m listener .onClosed st).win with
            windowListeners :=
              (notifyListener m listener .onClosed st).win.windowListeners.remove listener } }
        : World)) s).win.windowListeners.entries =
      s.win.windowListeners.entries.filter (fun x => decide (x ∉ ls)) := by
  induction ls generalizing s with
  | nil => simp
  | cons listener rest ih =>
    rw [List.foldl_cons, ih]
    · show List.filter _
        ((notifyListener m listener .onClosed s).win.windowListeners.remove listener).entries = _
      rw [closeProc_entries m listener s (hcb listener s) hnd, List.filter_filter]
      apply List.filter_congr
      intro x _
      by_cases h1 : x = listener <;> by_cases h2 : x ∈ rest <;> simp [h1, h2]
    · show ((notifyListener m listener .onClosed s).win.windowListeners.remove listener
        ).entries.Nodup
      rw [closeProc_entries m listener s (hcb listener s) hnd]
      exact hnd.filter _

/-- The log written by `onClosed`. -/
theorem onClosed_log (m : Collaborators) (s : World) :
    (onClosed m s).log =
      s.log
        ++ s.win.windowListeners.entries.map (fun listener => Event.listener listener .onClosed)
        ++ (match s.win.controller with
            | some c => [Event.controller c .onClosed]
            | none => [])
        ++ (match s.win.frame with
            | some f => [Event.frameRemember f, Event.frameClose f]
            | none => []) := by
  have hlog := forEach_log (fun listener => Event.listener listener .onClosed) _
    (closeProc_log m) s.win.windowListeners s
  have hsame := forEach_same _ (closeProc_same m) s.win.windowListeners s
  obtain ⟨hc, -, hf, -⟩ := hsame
  unfold onClosed
  simp only [notifyController_win, hf]
  cases hfr : s.win.frame <;>
    simp [World.emit, notifyController_log, hlog, hc]

/-- After `onClosed` the content view pointer and the platform window pointer
are null. -/
theorem onClosed_pointers_null (m : Collaborators) (s : World) :
    (onClosed m s).win.frame = none ∧ (onClosed m s).win.platformWindow = none := by
  refine ⟨?_, rfl⟩
  unfold onClosed
  simp only []
  split <;> simp_all

/-- C1. For a registry without duplicates whose listeners, in their own
`onClosed`, either leave the registry alone or unregister themselves, `onClosed`
of the window notifies every registered listener exactly once (and no other
listener), and leaves the registry empty. -/
theorem onClosed_notifies_each_listener_once (m : Collaborators) (s : World)
    (hnd : s.win.windowListeners.entries.Nodup)
    (hcb : ∀ listener st, m.listenerReentry listener .onClosed st = [] ∨
      m.listenerReentry listener .onClosed st = [.unregister listener]) :
    (∀ listener : ListenerId,
      (onClosed m s).log.count (Event.listener listener .onClosed) =
        s.log.count (Event.listener listener .onClosed) +
          (if listener ∈ s.win.windowListeners.entries then 1 else 0)) ∧
    (onClosed m s).win.windowListeners.entries = [] := by
  constructor
  · intro listener
    rw [onClosed_log]
    have hmap : (s.win.windowListeners.entries.map
        (fun l => Event.listener l .onClosed)).count (Event.listener listener .onClosed) =
        s.win.windowListeners.entries.count listener :=
      List.count_map_of_injective s.win.windowListeners.entries
        (fun l => Event.listener l .onClosed) (fun a b h => by injection h) listener
    have hcount : s.win.windowListeners.entries.count listener =
        if listener ∈ s.win.windowListeners.entries then 1 else 0 := by
      split
      · next h => exact List.count_eq_one_of_mem hnd h
      · next h => exact List.count_eq_zero_of_not_mem h
    simp only [List.count_append, hmap, hcount]
    cases s.win.controller <;> cases s.win.frame <;> simp [List.count_cons]
  · have h := foldl_close_entries m hcb s.win.windowListeners.entries s hnd
    have hempty : s.win.windowListeners.entries.filter
        (fun x => decide (x ∉ s.win.windowListeners.entries)) = [] := by
      simp [List.filter_eq_nil_iff]
    unfold onClosed
    simp only [notifyController_win]
    rw [← hempty, ← h]
    cases hfr : (notifyController Notification.onClosed
      (s.win.windowListeners.forEach (fun listener st =>
        ({ notifyListener m listener .onClosed st with
          win := { (notifyListener m listener .onClosed st).win with
            windowListeners :=
              (notifyListener m listener .onClosed st).win.windowListeners.remove listener } }
        : World)) s)).win.frame <;> simp_all [DispatchList.forEach, World.emit, notifyController_win]

/-- C2. For every window state, the calls logged by `onClosed` are, in this
order: `onClosed` on every registered listener, then `onClosed` on the
controller if there is one, then `remember` followed by `close` on the content
view if one is attached; afterwards the content view pointer and the platform
window pointer are null. -/
theorem onClosed_trace (m : Collaborators) (s : World) :
    (onClosed m s).log =
      s.log
        ++ s.win.windowListeners.entries.map (fun listener => Event.listener listener .onClosed)
        ++ (match s.win.controller with
            | some c => [Event.controller c .onClosed]
            | none => [])
        ++ (match s.win.frame with
            | some f => [Event.frameRemember f, Event.frameClose f]
            | none => []) ∧
    (onClosed m s).win.frame = none ∧
    (onClosed m s).win.platformWindow = none := by
  exact ⟨onClosed_log m s, onClosed_pointers_null m s⟩

/-- C3. For every window state and every size, the calls logged by
`onSizeChanged` are: `onSizeChanged` on every registered listener, then
`onSizeChanged` on the controller if there is one, then `setSize` with the two
coordinates on the content view if one is attached; so the resize of the content
view comes after the last listener and the controller. -/
theorem onSizeChanged_trace (m : Collaborators) (newSize : CPoint) (s : World) :
    (onSizeChanged m newSize s).log =
      s.log
        ++ s.win.windowListeners.entries.map
            (fun listener => Event.listener listener (.onSizeChanged newSize))
        ++ (match s.win.controller with
            | some c => [Event.controller c (.onSizeChanged newSize)]
            | none => [])
        ++ (match s.win.frame with
            | some f => [Event.frameSetSize f newSize.x newSize.y]
            | none => []) := by
  have hlog := forEach_log (fun listener => Event.listener listener (.onSizeChanged newSize))
    (fun listener st => notifyListener m listener (.onSizeChanged newSize) st)
    (fun obj st => notifyListener_log m obj _ st) s.win.windowListeners s
  have hsame := forEach_same
    (fun listener st => notifyListener m listener (.onSizeChanged newSize) st)
    (fun obj st => notifyListener_same m obj _ st) s.win.windowListeners s
  obtain ⟨hc, -, hf, -⟩ := hsame
  unfold onSizeChanged
  simp only [notifyController_win, hf]
  cases hfr : s.win.frame <;>
    simp [World.emit, notifyController_log, hlog, hc]

/-- C1, at a sample: listeners 1 and 2 are registered, listener 1 unregisters
itself inside its `onClosed`. -/
theorem onClosed_notifies_each_listener_once_witness :
    ([1, 2] : List ListenerId).Nodup ∧
    (∀ listener : ListenerId,
      (onClosed sampleCollaborators ⟨sampleWindow (some 7), []⟩).log.count
          (Event.listener listener .onClosed) =
        ([] : List Event).count (Event.listener listener .onClosed) +
          (if listener ∈ ([1, 2] : List ListenerId) then 1 else 0)) ∧
    (onClosed sampleCollaborators ⟨sampleWindow (some 7), []⟩).win.windowListeners.entries
      = [] :=
  ⟨by decide,
   onClosed_notifies_each_listener_once sampleCollaborators ⟨sampleWindow (some 7), []⟩
    (by decide)
    (by
      intro listener st
      by_cases h : listener = 1 <;> simp [sampleCollaborators, h])⟩

/-- C4. On a live window, `setContentView (v1)` followed by `setContentView (v2)`
succeeds; the first call logs the close of the view attached before (if any)
and then the open of `v1`; the second call logs the close of `v1` and after it
the open of `v2`, and when `v2` is null it logs the close of `v1` only; the
stored content view is `v2` at the end. -/
theorem setContentView_detach_before_attach (m : Collaborators) (s : World)
    (pw : PlatformWindowId) (v1 : FrameId) (v2 : Option FrameId)
    (hlive : s.win.platformWindow = some pw) :
    ∃ s1 s2 : World,
      setContentView m (some v1) s = .ok s1 ∧
      setContentView m v2 s1 = .ok s2 ∧
      s1.log = s.log
        ++ (match s.win.frame with
            | some f0 => [Event.frameClose f0]
            | none => [])
        ++ [Event.frameOpen v1 (m.getPlatformHandle pw) (m.getPlatformType pw)] ∧
      s1.win.frame = some v1 ∧
      s2.log = s1.log
        ++ [Event.frameClose v1]
        ++ (match v2 with
            | some f2 => [Event.frameOpen f2 (m.getPlatformHandle pw) (m.getPlatformType pw)]
            | none => []) ∧
      s2.win.frame = v2 := by
  obtain ⟨win, log⟩ := s
  obtain ⟨controller, platformWindow, frame, autoSaveFrameName, windowListeners⟩ := win
  simp only at hlive
  subst hlive
  cases frame <;> cases v2 <;> simp [setContentView, World.emit]

/-- C4, at a sample: view 5 is attached, then views 8 and 9 are set. -/
theorem setContentView_detach_before_attach_witness :
    ∃ s1 s2 : World,
      setContentView sampleCollaborators (some 8) ⟨sampleWindow none, []⟩ = .ok s1 ∧
      setContentView sampleCollaborators (some 9) s1 = .ok s2 ∧
      s1.log = [] ++ [Event.frameClose 5] ++ [Event.frameOpen 8 101 0] ∧
      s1.win.frame = some 8 ∧
      s2.log = s1.log ++ [Event.frameClose 8] ++ [Event.frameOpen 9 101 0] ∧
      s2.win.frame = some 9 :=
  setContentView_detach_before_attach sampleCollaborators ⟨sampleWindow none, []⟩ 100 8 (some 9)
    rfl

/-- C5. Without a controller, `constraintSize (s)` returns `s` and `canClose ()`
returns true, and both leave the window and the log as they were: no listener
and no other collaborator is called. -/
theorem no_controller_pass_through (m : Collaborators) (s : World) (newSize : CPoint)
    (hnull : s.win.controller = none) :
    constraintSize m newSize s = (newSize, s) ∧ canClose m s = (true, s) := by
  simp [constraintSize, canClose, hnull]

/-- C5, at a sample window without controller. -/
theorem no_controller_pass_through_witness :
    (sampleWindow none).controller = none ∧
    constraintSize sampleCollaborators ⟨800, 600⟩ ⟨sampleWindow none, []⟩
      = (⟨800, 600⟩, ⟨sampleWindow none, []⟩) ∧
    canClose sampleCollaborators ⟨sampleWindow none, []⟩ = (true, ⟨sampleWindow none, []⟩) :=
  ⟨rfl, no_controller_pass_through sampleCollaborators ⟨sampleWindow none, []⟩ ⟨800, 600⟩ rfl⟩

/-- C7. With a controller that does not implement `ICommandHandler`,
`handleCommand` and `canHandleCommand` return false and log nothing but the
capability check; with a controller that implements it, each returns what the
handler returns for the command, after the capability check and that one call. -/
theorem command_routing (m : Collaborators) (s : World) (c : ControllerId) (command : Command)
    (hc : s.win.controller = some c) :
    (m.dynamicCastCommandHandler c = none →
      handleCommand m command s = .ok (false, s.emit (.controllerDynamicCast c)) ∧
      canHandleCommand m command s = .ok (false, s.emit (.controllerDynamicCast c))) ∧
    (∀ h : CommandHandlerId, m.dynamicCastCommandHandler c = some h →
      handleCommand m command s =
        .ok (m.commandHandlerHandleCommand h (s.emit (.controllerDynamicCast c)) command,
             (s.emit (.controllerDynamicCast c)).emit (.commandHandlerHandleCommand h command)) ∧
      canHandleCommand m command s =
        .ok (m.commandHandlerCanHandleCommand h (s.emit (.controllerDynamicCast c)) command,
             (s.emit (.controllerDynamicCast c)).emit
               (.commandHandlerCanHandleCommand h command))) := by
  constructor
  · intro hcast
    simp [handleCommand, canHandleCommand, dynamicCast, hc, hcast]
  · intro h hcast
    simp [handleCommand, canHandleCommand, dynamicCast, hc, hcast]

/-- C7, at samples: controller 3 lacks the capability, controller 7 has it. -/
theorem command_routing_witness :
    (handleCommand sampleCollaborators sampleCommand ⟨sampleWindow (some 3), []⟩ =
        .ok (false, ⟨sampleWindow (some 3), [.controllerDynamicCast 3]⟩) ∧
     canHandleCommand sampleCollaborators sampleCommand ⟨sampleWindow (some 3), []⟩ =
        .ok (false, ⟨sampleWindow (some 3), [.controllerDynamicCast 3]⟩)) ∧
    (handleCommand sampleCollaborators sampleCommand ⟨sampleWindow (some 7), []⟩ =
        .ok (true, ⟨sampleWindow (some 7),
          [.controllerDynamicCast 7, .commandHandlerHandleCommand 70 sampleCommand]⟩) ∧
     canHandleCommand sampleCollaborators sampleCommand ⟨sampleWindow (some 7), []⟩ =
        .ok (true, ⟨sampleWindow (some 7),
          [.controllerDynamicCast 7, .commandHandlerCanHandleCommand 70 sampleCommand]⟩)) :=
  ⟨(command_routing sampleCollaborators ⟨sampleWindow (some 3), []⟩ 3 sampleCommand rfl).1 rfl,
   (command_routing sampleCollaborators ⟨sampleWindow (some 7), []⟩ 7 sampleCommand rfl).2 70
     rfl⟩

/-- C8. The factory `makeWindow` returns null exactly when the platform creates
no window; in that case `init` returns false and leaves the controller and the
auto-save name of the window as they were; when the platform creates a window,
the returned window holds the given controller and that (non-null) platform
window. -/
theorem makeWindow_null_iff_platform_fails (m : Collaborators) (config : WindowConfiguration)
    (controller : Option ControllerId) :
    (makeWindow m config controller = none ↔ m.platformMakeWindow config = none) ∧
    (m.platformMakeWindow config = none → ∀ w : Window,
      (init m config controller w).1 = false ∧
      (init m config controller w).2.controller = w.controller ∧
      (init m config controller w).2.autoSaveFrameName = w.autoSaveFrameName) ∧
    (∀ w : Window, makeWindow m config controller = some w →
      w.controller = controller ∧
      w.platformWindow = m.platformMakeWindow config ∧
      w.platformWindow ≠ none) := by
  have hflag : (init m config controller newWindow).1 = (m.platformMakeWindow config).isSome := by
    unfold init
    cases m.platformMakeWindow config <;> cases config.flags.doesAutoSaveFrame <;> rfl
  have hpw : (init m config controller newWindow).2.platformWindow =
      m.platformMakeWindow config := by
    unfold init
    cases m.platformMakeWindow config <;> cases config.flags.doesAutoSaveFrame <;> rfl
  refine ⟨?_, ?_, ?_⟩
  · unfold makeWindow
    simp only [hflag]
    cases m.platformMakeWindow config <;> simp
  · intro h w
    simp [init, h]
  · intro w hw
    unfold makeWindow at hw
    simp only [hflag] at hw
    cases h : m.platformMakeWindow config
    · simp [h] at hw
    · simp only [h, Option.isSome_some, Bool.not_true, Bool.false_eq_true, if_false,
        Option.some.injEq] at hw
      subst hw
      refine ⟨?_, ?_, ?_⟩
      · unfold init
        simp only [h]
      · rw [hpw, h]
      · rw [hpw, h]
        simp

/-- C8, at samples: the platform fails for `failingConfig` and creates window
100 for `sampleConfig`. -/
theorem makeWindow_null_iff_platform_fails_witness :
    makeWindow sampleCollaborators failingConfig (some 7) = none ∧
    ((init sampleCollaborators failingConfig (some 7) newWindow).1 = false ∧
     (init sampleCollaborators failingConfig (some 7) newWindow).2.controller = none ∧
     (init sampleCollaborators failingConfig (some 7) newWindow).2.autoSaveFrameName = "") ∧
    ((madeWindow (some 7)).controller = some 7 ∧
     (madeWindow (some 7)).platformWindow = some 100 ∧
     (madeWindow (some 7)).platformWindow ≠ none) :=
  ⟨(makeWindow_null_iff_platform_fails sampleCollaborators failingConfig (some 7)).1.2 rfl,
   (makeWindow_null_iff_platform_fails sampleCollaborators failingConfig (some 7)).2.1 rfl
     newWindow,
   (makeWindow_null_iff_platform_fails sampleCollaborators sampleConfig (some 7)).2.2
     (madeWindow (some 7)) rfl⟩

/-- C9 fails: on the sample window, after `onClosed`, `getSize` dereferences
the null platform window pointer, while `setContentView (nullptr)` completes
and changes nothing. -/
theorem proxies_after_onClosed_counterexample :
    getSize sampleCollaborators (onClosed sampleCollaborators ⟨sampleWindow (some 7), []⟩)
      = .error .nullDereference ∧
    setContentView sampleCollaborators none
        (onClosed sampleCollaborators ⟨sampleWindow (some 7), []⟩)
      = .ok (onClosed sampleCollaborators ⟨sampleWindow (some 7), []⟩) :=
  ⟨rfl, rfl⟩

/-- C9, amended. After `onClosed`, each of `getSize`, `getPosition`, `setSize`,
`setPosition`, `setTitle`, `show`, `hide`, `close` and `setContentView` with a
non-null view dereferences the null platform window pointer; `setContentView`
with a null view completes and changes nothing. -/
theorem proxies_after_onClosed (m : Collaborators) (s : World) :
    getSize m (onClosed m s) = .error .nullDereference ∧
    getPosition m (onClosed m s) = .error .nullDereference ∧
    (∀ newSize, setSize newSize (onClosed m s) = .error .nullDereference) ∧
    (∀ newPosition, setPosition newPosition (onClosed m s) = .error .nullDereference) ∧
    (∀ newTitle, setTitle newTitle (onClosed m s) = .error .nullDereference) ∧
    «show» (onClosed m s) = .error .nullDereference ∧
    hide (onClosed m s) = .error .nullDereference ∧
    close (onClosed m s) = .error .nullDereference ∧
    (∀ newFrame : FrameId,
      setContentView m (some newFrame) (onClosed m s) = .error .nullDereference) ∧
    setContentView m none (onClosed m s) = .ok (onClosed m s) := by
  obtain ⟨hframe, hpw⟩ := onClosed_pointers_null m s
  generalize onClosed m s = t at hframe hpw
  obtain ⟨win, log⟩ := t
  obtain ⟨controller, platformWindow, frame, autoSaveFrameName, windowListeners⟩ := win
  simp only at hframe hpw
  subst hframe hpw
  simp [getSize, getPosition, setSize, setPosition, setTitle, «show», hide, close,
    setContentView]

/-- No operation other than `onClosed` changes the platform window pointer. -/
theorem step_platformWindow (m : Collaborators) (op : Op) (s s1 : World)
    (hop : op ≠ .onClosed) (hstep : step m op s = .ok s1) :
    s1.win.platformWindow = s.win.platformWindow := by
  have hfan : ∀ n : Notification,
      (notifyController n (s.win.windowListeners.forEach
        (fun listener st => notifyListener m listener n st) s)).win.platformWindow =
        s.win.platformWindow := by
    intro n
    rw [notifyController_win]
    exact (forEach_same _ (fun obj st => notifyListener_same m obj n st) _ s).2.1
  cases op with
  | onClosed => exact absurd rfl hop
  | getController =>
    simp only [step, getController, Except.ok.injEq] at hstep
    rw [← hstep]
  | getSize =>
    simp only [step, getSize] at hstep
    cases hpw : s.win.platformWindow <;> simp [hpw, Except.map] at hstep
    rw [← hstep, hpw]
  | getPosition =>
    simp only [step, getPosition] at hstep
    cases hpw : s.win.platformWindow <;> simp [hpw, Except.map] at hstep
    rw [← hstep, hpw]
  | setSize newSize =>
    simp only [step, setSize] at hstep
    cases hpw : s.win.platformWindow <;> simp [hpw] at hstep
    rw [← hstep]
    exact hpw
  | setPosition newPosition =>
    simp only [step, setPosition] at hstep
    cases hpw : s.win.platformWindow <;> simp [hpw] at hstep
    rw [← hstep]
    exact hpw
  | setTitle newTitle =>
    simp only [step, setTitle] at hstep
    cases hpw : s.win.platformWindow <;> simp [hpw] at hstep
    rw [← hstep]
    exact hpw
  | «show» =>
    simp only [step, «show»] at hstep
    cases hpw : s.win.platformWindow <;> simp [hpw] at hstep
    rw [← hstep]
    exact hpw
  | hide =>
    simp only [step, hide] at hstep
    cases hpw : s.win.platformWindow <;> simp [hpw] at hstep
    rw [← hstep]
    exact hpw
  | close =>
    simp only [step, close] at hstep
    cases hpw : s.win.platformWindow <;> simp [hpw] at hstep
    rw [← hstep]
    exact hpw
  | setContentView newFrame =>
    simp only [step, setContentView] at hstep
    cases hpw : s.win.platformWindow <;> cases hf : s.win.frame <;> cases newFrame <;>
      simp [hpw, hf, World.emit] at hstep <;> rw [← hstep]
  | registerWindowListener listener =>
    simp only [step, registerWindowListener, Except.ok.injEq] at hstep
    rw [← hstep]
  | unregisterWindowListener listener =>
    simp only [step, unregisterWindowListener, Except.ok.injEq] at hstep
    rw [← hstep]
  | constraintSize newSize =>
    simp only [step, constraintSize, Except.ok.injEq] at hstep
    rw [← hstep]
    cases s.win.controller <;> rfl
  | canClose =>
    simp only [step, canClose, Except.ok.injEq] at hstep
    rw [← hstep]
    cases s.win.controller <;> rfl
  | onSizeChanged newSize =>
    simp only [step, onSizeChanged, Except.ok.injEq] at hstep
    rw [← hstep, ← hfan (.onSizeChanged newSize)]
    split <;> rfl
  | onPositionChanged newPosition =>
    simp only [step, onPositionChanged, Except.ok.injEq] at hstep
    rw [← hstep]
    exact hfan _
  | onShow =>
    simp only [step, onShow, Except.ok.injEq] at hstep
    rw [← hstep]
    exact hfan _
  | onHide =>
    simp only [step, onHide, Except.ok.injEq] at hstep
    rw [← hstep]
    exact hfan _
  | canHandleCommand command =>
    simp only [step, canHandleCommand, dynamicCast] at hstep
    cases hc : s.win.controller with
    | none =>
      simp [hc, Except.map] at hstep
      rw [← hstep]
    | some c =>
      cases hd : m.dynamicCastCommandHandler c <;>
        simp [hc, hd, Except.map, World.emit] at hstep <;> rw [← hstep]
  | handleCommand command =>
    simp only [step, handleCommand, dynamicCast] at hstep
    cases hc : s.win.controller with
    | none =>
      simp [hc, Except.map] at hstep
      rw [← hstep]
    | some c =>
      cases hd : m.dynamicCastCommandHandler c <;>
        simp [hc, hd, Except.map, World.emit] at hstep <;> rw [← hstep]

/-- A run without `onClosed` keeps the platform window pointer. -/
theorem runOps_platformWindow (m : Collaborators) (ops : List Op) (s s1 : World)
    (hops : Op.onClosed ∉ ops) (hrun : runOps m ops s = .ok s1) :
    s1.win.platformWindow = s.win.platformWindow := by
  induction ops generalizing s with
  | nil =>
    simp only [runOps, Except.ok.injEq] at hrun
    rw [hrun]
  | cons op rest ih =>
    rw [List.mem_cons, not_or] at hops
    unfold runOps at hrun
    cases hstep : step m op s with
    | error e => simp [hstep] at hrun
    | ok s2 =>
      simp only [hstep] at hrun
      rw [ih s2 hops.2 hrun]
      exact step_platformWindow m op s s2 (fun h => hops.1 h.symm) hstep

/-- Once the platform window pointer is null, it is null after every run. -/
theorem runOps_platformWindow_null (m : Collaborators) (ops : List Op) (s s1 : World)
    (hnull : s.win.platformWindow = none) (hrun : runOps m ops s = .ok s1) :
    s1.win.platformWindow = none := by
  induction ops generalizing s with
  | nil =>
    simp only [runOps, Except.ok.injEq] at hrun
    rw [← hrun]
    exact hnull
  | cons op rest ih =>
    unfold runOps at hrun
    cases hstep : step m op s with
    | error e => simp [hstep] at hrun
    | ok s2 =>
      simp only [hstep] at hrun
      apply ih s2 _ hrun
      by_cases hop : op = .onClosed
      · subst hop
        simp only [step, Except.ok.injEq] at hstep
        rw [← hstep]
        rfl
      · rw [step_platformWindow m op s s2 hop hstep]
        exact hnull

/-- On a live window every operation completes. -/
theorem step_live_ok (m : Collaborators) (op : Op) (s : World) (pw : PlatformWindowId)
    (hlive : s.win.platformWindow = some pw) :
    ∃ s1, step m op s = .ok s1 := by
  cases op with
  | canHandleCommand command =>
    cases hc : s.win.controller with
    | none => simp [step, canHandleCommand, dynamicCast, hc, Except.map]
    | some c =>
      cases hd : m.dynamicCastCommandHandler c <;>
        simp [step, canHandleCommand, dynamicCast, hc, hd, Except.map]
  | handleCommand command =>
    cases hc : s.win.controller with
    | none => simp [step, handleCommand, dynamicCast, hc, Except.map]
    | some c =>
      cases hd : m.dynamicCastCommandHandler c <;>
        simp [step, handleCommand, dynamicCast, hc, hd, Except.map]
  | setContentView newFrame =>
    cases newFrame <;> cases hf : s.win.frame <;>
      simp [step, setContentView, hlive, hf, World.emit]
  | _ =>
    simp [step, getSize, getPosition, setSize, setPosition, setTitle, «show», hide, close,
      hlive, Except.map]

/-- A window returned by `makeWindow` holds the window the platform created. -/
theorem makeWindow_lifecycle_start (m : Collaborators) (config : WindowConfiguration)
    (controller : Option ControllerId) (w0 : Window)
    (hmake : makeWindow m config controller = some w0) :
    w0.platformWindow = m.platformMakeWindow config ∧ w0.platformWindow ≠ none := by
  unfold makeWindow init at hmake
  cases h : m.platformMakeWindow config
  · simp [h] at hmake
  · cases hflag : config.flags.doesAutoSaveFrame <;>
      simp [h, hflag] at hmake <;> rw [← hmake] <;> simp

/-- C10. Let `w0` be a window returned by `makeWindow`. In the state reached
from it by any run of operations without `onClosed`, the platform window pointer
is non-null (it is the window the platform created); `onClosed` on that state
makes it null; it is null in every state reached by any further run of
operations; and no operation other than `onClosed` ever changes it. -/
theorem platformWindow_lifecycle (m : Collaborators) (config : WindowConfiguration)
    (controller : Option ControllerId) (w0 : Window) (ops1 ops2 : List Op) (s1 s3 : World)
    (hmake : makeWindow m config controller = some w0)
    (hops : Op.onClosed ∉ ops1)
    (hrun1 : runOps m ops1 ⟨w0, []⟩ = .ok s1)
    (hrun2 : runOps m ops2 (onClosed m s1) = .ok s3) :
    s1.win.platformWindow = m.platformMakeWindow config ∧
    s1.win.platformWindow ≠ none ∧
    (onClosed m s1).win.platformWindow = none ∧
    s3.win.platformWindow = none ∧
    (∀ (op : Op) (s t : World), op ≠ .onClosed → step m op s = .ok t →
      t.win.platformWindow = s.win.platformWindow) := by
  have hw0 := (makeWindow_lifecycle_start m config controller w0 hmake)
  have h1 := runOps_platformWindow m ops1 ⟨w0, []⟩ s1 hops hrun1
  refine ⟨?_, ?_, rfl, ?_, ?_⟩
  · rw [h1]
    exact hw0.1
  · rw [h1]
    exact hw0.2
  · exact runOps_platformWindow_null m ops2 (onClosed m s1) s3 rfl hrun2
  · intro op s t hop hstep
    exact step_platformWindow m op s t hop hstep

/-- C10, at a sample run: a view is attached, a listener registered, the window
resized and shown; after `onClosed` the listener is unregistered, the window is
hidden and the view detached. -/
theorem platformWindow_lifecycle_witness :
    makeWindow sampleCollaborators sampleConfig (some 7) = some (madeWindow (some 7)) ∧
    Op.onClosed ∉ sampleOpsLive ∧
    runOps sampleCollaborators sampleOpsLive ⟨madeWindow (some 7), []⟩ = .ok sampleLive ∧
    runOps sampleCollaborators sampleOpsClosed (onClosed sampleCollaborators sampleLive)
      = .ok sampleClosed ∧
    sampleLive.win.platformWindow = some 100 ∧
    sampleLive.win.platformWindow ≠ none ∧
    (onClosed sampleCollaborators sampleLive).win.platformWindow = none ∧
    sampleClosed.win.platformWindow = none :=
  have h := platformWindow_lifecycle sampleCollaborators sampleConfig (some 7)
    (madeWindow (some 7)) sampleOpsLive sampleOpsClosed sampleLive sampleClosed
    rfl (by decide) rfl rfl
  ⟨rfl, by decide, rfl, rfl, h.1, h.2.1, h.2.2.1, h.2.2.2.1⟩

end VSTGUI.Standalone.Detail
